import Mathlib

/-!
Verification of the JudgeORM data-access layer.

The repository's only non-trivial module is `src/JudgeInterface/abstract.py`:
a class `AbstractInterface` offering create / retrieve / update / delete over
one table, driven by per-entity field lists (`create_fields`,
`retrieve_fields`, `update_fields`) and a DB cursor.  This file is a shallow
embedding of that class: Python dicts become association lists, the cursor
becomes an explicit record threaded through each operation (its log of
executed statements, the last-insert identifier the store reports, and the
pending result rows the store would yield), and a raised `AttributeError`
(the "FieldNotAllowed" failure of the spec) becomes the error branch of an
`Except`.

The helper module `JudgeInterface/lib/placeholder.py` is not part of the
repository's sources here; its four pure string-rendering functions are
modelled from the specification's description of the placeholder-generation
contract (each such definition carries a doc comment saying so).
-/

namespace JudgeInterface

/-- A field (column) name. -/
abbrev Field := String

/-- A Python value as it appears in this layer: `None`, an integer or a
string.  `vnone` models Python `None` (what `dict.get` returns for a missing
key). -/
inductive Val where
  | vnone : Val
  | vint : Int → Val
  | vstr : String → Val
deriving DecidableEq, Repr

/-- A field-to-value mapping (a Python dict, e.g. the `**data` keyword
arguments or a fetched row), kept as an association list in insertion
order.  Keyword-argument dicts have pairwise distinct keys; lookups below
take the first binding, which agrees with dict semantics on such lists. -/
abbrev Row := List (Field × Val)

/-- First binding of a key, `none` when absent (`key in data` is
`(lookup).isSome`). -/
def Row.lookup : Row → Field → Option Val
  | [], _ => none
  | p :: r, k => if p.1 = k then some p.2 else Row.lookup r k

/-- Python `data.get(key)`: the bound value, or `None` when the key is
absent. -/
def Row.get (r : Row) (k : Field) : Val :=
  match Row.lookup r k with
  | some v => v
  | none => Val.vnone

/-- Python `key in data`. -/
def Row.hasKey (r : Row) (k : Field) : Bool :=
  (Row.lookup r k).isSome

/-- Python `data.keys()` in insertion order. -/
def Row.keys (r : Row) : List Field :=
  r.map Prod.fst

/-- Python dict assignment `r[k] = v`: overwrite in place when the key is
present, append otherwise. -/
def Row.setKey (r : Row) (k : Field) (v : Val) : Row :=
  if Row.hasKey r k then r.map (fun p => if p.1 = k then (k, v) else p)
  else r ++ [(k, v)]

/-- The one validation failure of the layer: the `AttributeError` raised as
`f'\x7bstr(unknown_fields)\x7d field(s) is(are) not allowed'` — the spec's
`FieldNotAllowed` — carrying the offending field names.  (Python renders the
set `unknown_fields` in an unspecified order; the payload here keeps the
offending names in first-occurrence order, and no theorem depends on that
order.) -/
inductive DBError where
  | fieldNotAllowed : List Field → DBError
deriving DecidableEq, Repr

/-- Whether an `Except` result is the raised-error outcome. -/
def isError {ε α : Type} : Except ε α → Bool
  | Except.error _ => true
  | Except.ok _ => false

/-- One statement handed to `cur.execute`: the query string and the
positional parameter tuple (`none` models the one-argument call
`cur.execute(query)` with no parameter tuple at all). -/
structure Statement where
  query : String
  params : Option (List Val)
deriving DecidableEq, Repr

/-- The external cursor, as far as this layer observes it: the log of
statements executed on it, `lastrowid` (the identifier the store reports
for the last INSERT — the store itself is external, so the model carries
the value it would report), and `rows`, the result set the store will
yield when the cursor is iterated after a SELECT. -/
structure Cursor where
  executed : List Statement
  lastrowid : Int
  rows : List Row
deriving DecidableEq, Repr

/-- `cur.execute(query, params)`: the statement is appended to the log;
everything else about the store is external. -/
def Cursor.execute (cur : Cursor) (query : String) (params : Option (List Val)) : Cursor :=
  { cur with executed := cur.executed ++ [{ query := query, params := params }] }

/-- The set difference `set(keys) - set(allowed)` computed at the top of
`perform_create`, `perform_retrieve` and `perform_update`, as a list of the
offending names in first-occurrence order. -/
def unknownFields (keys allowed : List Field) : List Field :=
  keys.dedup.filter (fun k => decide (k ∉ allowed))

/-- The per-instance schema configuration a subclass of `AbstractInterface`
sets in `__init__`: the table name and the three field lists. -/
structure Interface where
  table_name : String
  create_fields : List Field
  retrieve_fields : List Field
  update_fields : List Field
deriving DecidableEq, Repr

/-- Modelled from the spec: `Placeholder.for_create_query(n)` renders the
parameter placeholders for `n` positional insert values (the
placeholder-generation contract, item (a)). -/
def Placeholder.for_create_query (n : Nat) : String :=
  String.intercalate ", " (List.replicate n "?")

/-- Modelled from the spec: `Placeholder.for_select_query(fields)` renders
the projection column list for SELECT (the placeholder-generation contract,
item (d)). -/
def Placeholder.for_select_query (fields : List Field) : String :=
  String.intercalate ", " fields

/-- Modelled from the spec: `Placeholder.for_where_query(keys)` renders a
conjunction of equality predicates for WHERE, one positional parameter per
key, in key order (the placeholder-generation contract, item (c)). -/
def Placeholder.for_where_query (keys : List Field) : String :=
  String.intercalate " AND " (keys.map (fun k => k ++ " = ?"))

/-- Modelled from the spec: `Placeholder.for_update_query(update_fields,
**data)` renders a SET clause listing exactly the supplied columns that are
in `update_fields`, in the declared order of `update_fields` (the
placeholder-generation contract, item (b), with §4.3: "setting exactly
those columns (order preserved)"). -/
def Placeholder.for_update_query (update_fields : List Field) (data : Row) : String :=
  String.intercalate ", " ((update_fields.filter (fun k => Row.hasKey data k)).map (fun k => k ++ " = ?"))

/-- The INSERT f-string of `perform_create` (whitespace as in the source's
triple-quoted literal). -/
def insertQuery (table query_fields placeholder : String) : String :=
  "\n            INSERT INTO\n            " ++ table ++ "(" ++ query_fields ++
    ")\n            VALUES(" ++ placeholder ++ ")\n            "

/-- The SELECT query of `perform_retrieve`: the projection and FROM parts,
plus a WHERE clause exactly when at least one filter key was supplied. -/
def retrieveQuery (table : String) (project_fields where_keys : List Field) : String :=
  if where_keys.length > 0 then
    "SELECT " ++ Placeholder.for_select_query project_fields ++ "\nFROM " ++ table ++
      "\nWHERE " ++ Placeholder.for_where_query where_keys
  else
    "SELECT " ++ Placeholder.for_select_query project_fields ++ "\nFROM " ++ table

/-- The UPDATE f-string of `perform_update` (whitespace as in the source's
triple-quoted literal). -/
def updateQuery (table set_clause : String) : String :=
  "\n            UPDATE " ++ table ++ "\n            SET " ++ set_clause ++
    "\n            WHERE id = ?\n            "

/-- The DELETE f-string of `perform_delete` (whitespace as in the source's
triple-quoted literal). -/
def deleteQuery (table : String) : String :=
  "\n            DELETE FROM " ++ table ++ "\n            WHERE id = ?\n            "

/-- `valid_fields = [key for key in create_fields if key in data]` of
`perform_create` (the same comprehension filters `update_fields` in
`perform_update`). -/
def valid_fields (fields : List Field) (data : Row) : List Field :=
  fields.filter (fun k => Row.hasKey data k)

/-- `fields_values = tuple(data.get(key) for key in create_fields if key in
data)` of `perform_create` (and the analogous tuple of `perform_update`). -/
def fieldsValues (fields : List Field) (data : Row) : List Val :=
  (fields.filter (fun k => Row.hasKey data k)).map (fun k => Row.get data k)

/-- The output mapping of `perform_create`:
`context = \x7bkey: data.get(key) for key in retrieve_fields\x7d` followed by
`context['id'] = cur.lastrowid`. -/
def createContext (retrieve_fields : List Field) (data : Row) (rowid : Int) : Row :=
  Row.setKey (retrieve_fields.map (fun k => (k, Row.get data k))) "id" (Val.vint rowid)

/-- A create result: the raw `context` dict, or the value built by the
caller-supplied `return_type(**context)`. -/
inductive CreateResult (α : Type) where
  | mapping : Row → CreateResult α
  | constructed : α → CreateResult α
deriving DecidableEq, Repr

/-- One element of the list `perform_retrieve` returns: a row as-is, or the
instance `return_type(**t)` built from it. -/
inductive RetItem (α : Type) where
  | raw : Row → RetItem α
  | built : α → RetItem α
deriving DecidableEq, Repr

/-- The result-shaping loop of `perform_retrieve`: `lst.append(return_type(**t))`
for each fetched row when a constructor was supplied, `lst.append(t)`
otherwise. -/
def retrieveItems {α : Type} (return_type : Option (Row → α)) (rows : List Row) : List (RetItem α) :=
  match return_type with
  | some f => rows.map (fun t => RetItem.built (f t))
  | none => rows.map (fun t => RetItem.raw t)

/-- The parameter tuple of the SELECT: `tuple(where_kwargs.get(key) for key
in where_keys)` when filters are present, and no tuple at all (the
one-argument `execute`) otherwise. -/
def retrieveParams (where_kwargs : Row) : Option (List Val) :=
  if (Row.keys where_kwargs).length > 0 then
    some ((Row.keys where_kwargs).map (fun k => Row.get where_kwargs k))
  else none

/-- The output mapping of `perform_update`:
`returnable_fields = list(set(retrieve_fields).intersection(set(data.keys())))`
then `context = \x7bkey: data.get(key) for key in returnable_fields\x7d`.
Python materialises the intersection set in an unspecified order; the model
fixes first-occurrence order of `retrieve_fields`, and every theorem below
uses only the mapping's extension (key membership and lookups), never that
order. -/
def updateContext (retrieve_fields : List Field) (data : Row) : Row :=
  ((retrieve_fields.filter (fun k => Row.hasKey data k)).dedup).map (fun k => (k, Row.get data k))

/-- `AbstractInterface.perform_create(self, return_type=None, **data)`.
The success path of the source, reached when validation passes: build and
execute the INSERT, then shape the output. -/
def createSuccess {α : Type} (self : Interface) (cur : Cursor)
    (return_type : Option (Row → α)) (data : Row) :
    Except DBError (CreateResult α) × Cursor :=
  let fields_values := fieldsValues self.create_fields data
  let cur2 := Cursor.execute cur
    (insertQuery self.table_name (String.intercalate ", " (valid_fields self.create_fields data))
      (Placeholder.for_create_query fields_values.length))
    (some fields_values)
  let context := createContext self.retrieve_fields data cur2.lastrowid
  match return_type with
  | some f => (Except.ok (CreateResult.constructed (f context)), cur2)
  | none => (Except.ok (CreateResult.mapping context), cur2)

/-- `AbstractInterface.perform_create`: raise when `set(data.keys()) -
set(create_fields)` is non-empty, otherwise run the success path. -/
def perform_create {α : Type} (self : Interface) (cur : Cursor)
    (return_type : Option (Row → α)) (data : Row) :
    Except DBError (CreateResult α) × Cursor :=
  if (unknownFields (Row.keys data) self.create_fields).length > 0 then
    (Except.error (DBError.fieldNotAllowed (unknownFields (Row.keys data) self.create_fields)), cur)
  else createSuccess self cur return_type data

/-- The success path of `perform_retrieve` (source lines 68–97), reached
with the already-defaulted projection list: build and execute the SELECT,
then collect every fetched row into `lst` (the `for t in self.cur` loop
exhausts the cursor's result set before the function returns). -/
def retrieveSuccess {α : Type} (self : Interface) (cur : Cursor)
    (return_type : Option (Row → α)) (project2 : List Field)
    (where_kwargs : Row) :
    Except DBError (List (RetItem α)) × Cursor :=
  let cur2 := Cursor.execute cur
    (retrieveQuery self.table_name project2 (Row.keys where_kwargs))
    (retrieveParams where_kwargs)
  (Except.ok (retrieveItems return_type cur2.rows), { cur2 with rows := [] })

/-- `AbstractInterface.perform_retrieve(self, return_type=None,
project_fields=[], **where_kwargs)`: validate the projection, default an
empty projection to `retrieve_fields`, validate the filter keys, then run
the success path. -/
def perform_retrieve {α : Type} (self : Interface) (cur : Cursor)
    (return_type : Option (Row → α)) (project_fields : List Field)
    (where_kwargs : Row) :
    Except DBError (List (RetItem α)) × Cursor :=
  if (unknownFields project_fields self.retrieve_fields).length > 0 then
    (Except.error (DBError.fieldNotAllowed (unknownFields project_fields self.retrieve_fields)), cur)
  else if (unknownFields (Row.keys where_kwargs) self.retrieve_fields).length > 0 then
    (Except.error (DBError.fieldNotAllowed (unknownFields (Row.keys where_kwargs) self.retrieve_fields)), cur)
  else
    retrieveSuccess self cur return_type
      (if project_fields.length ≤ 0 then self.retrieve_fields else project_fields)
      where_kwargs

/-- `AbstractInterface.perform_update(self, id, **data)`: validate, return
`None` without executing anything when no supplied key is in
`update_fields`, otherwise execute the UPDATE (values in SET-clause order
followed by the identifier) and echo the written values restricted to
`retrieve_fields`. -/
def perform_update (self : Interface) (cur : Cursor) (id : Int) (data : Row) :
    Except DBError (Option Row) × Cursor :=
  if (unknownFields (Row.keys data) self.update_fields).length > 0 then
    (Except.error (DBError.fieldNotAllowed (unknownFields (Row.keys data) self.update_fields)), cur)
  else if (fieldsValues self.update_fields data).length ≤ 0 then
    (Except.ok none, cur)
  else
    (Except.ok (some (updateContext self.retrieve_fields data)),
     Cursor.execute cur
       (updateQuery self.table_name (Placeholder.for_update_query self.update_fields data))
       (some (fieldsValues self.update_fields data ++ [Val.vint id])))

/-- `AbstractInterface.perform_delete(self, id)`: execute the DELETE for
the identifier and return `None`; no validation, no inspection of the
store's affected-row count. -/
def perform_delete (self : Interface) (cur : Cursor) (id : Int) :
    Option Row × Cursor :=
  (none, Cursor.execute cur (deleteQuery self.table_name) (some [Val.vint id]))

/-- The pass-through hook `create(self, **data)`: it forwards to
`perform_create` without a `return_type` argument. -/
def create {α : Type} (self : Interface) (cur : Cursor) (data : Row) :
    Except DBError (CreateResult α) × Cursor :=
  perform_create self cur none data

/-- The pass-through hook `retrieve(self, return_type=None,
project_fields=[], **where_kwargs)`. -/
def retrieve {α : Type} (self : Interface) (cur : Cursor)
    (return_type : Option (Row → α)) (project_fields : List Field)
    (where_kwargs : Row) :
    Except DBError (List (RetItem α)) × Cursor :=
  perform_retrieve self cur return_type project_fields where_kwargs

/-- The pass-through hook `update(self, id, **data)`. -/
def update (self : Interface) (cur : Cursor) (id : Int) (data : Row) :
    Except DBError (Option Row) × Cursor :=
  perform_update self cur id data

/-- The pass-through hook `delete(self, id)`. -/
def delete (self : Interface) (cur : Cursor) (id : Int) : Option Row × Cursor :=
  perform_delete self cur id

/-! ## Output contracts

Propositions naming what the claims assert about the operations' outputs;
the claim theorems below prove them. -/

/-- The output contract of a valid create (claim C2, amended): the returned
mapping `ctx` — returned raw, or passed to the supplied constructor whose
value is returned instead — has key set `retrieve_fields ∪ \x7b"id"\x7d`; every
key of it other than `"id"` that was also supplied in `data` echoes the
input value; and `"id"` holds the cursor's last-insert identifier. -/
def CreateOutputOk {α : Type} (self : Interface) (cur : Cursor)
    (rt : Option (Row → α)) (data : Row) : Prop :=
  ∃ ctx : Row,
    (perform_create self cur rt data).1 =
      (match rt with
       | some f => Except.ok (CreateResult.constructed (f ctx))
       | none => Except.ok (CreateResult.mapping ctx)) ∧
    (∀ k, Row.hasKey ctx k = true ↔ (k ∈ self.retrieve_fields ∨ k = "id")) ∧
    (∀ k, k ∈ self.retrieve_fields → k ∈ Row.keys data → k ≠ "id" →
      Row.get ctx k = Row.get data k) ∧
    Row.get ctx "id" = Val.vint cur.lastrowid

/-- The absent-field contract of a valid create (claim C10, amended): every
field of `retrieve_fields` other than `"id"` that is absent from the input
data still appears as a key of the returned mapping, bound to `None`; the
`"id"` key instead always holds the last-insert identifier, even when
`"id" ∈ retrieve_fields` and absent from the input. -/
def CreateAbsentFieldsOk (self : Interface) (cur : Cursor) (data : Row) : Prop :=
  ∃ ctx : Row,
    (create (α := Row) self cur data).1 = Except.ok (CreateResult.mapping ctx) ∧
    (∀ k ∈ self.retrieve_fields, k ≠ "id" → k ∉ Row.keys data →
      (Row.hasKey ctx k = true ∧ Row.get ctx k = Val.vnone)) ∧
    Row.get ctx "id" = Val.vint cur.lastrowid

/-- The output contract of a valid retrieve (claim C4, amended): the call
executes exactly one statement, exhausts the cursor's result set before
returning, and returns the fully materialized finite list that collects, in
store iteration order, each fetched row as-is — or, when a result
constructor was supplied, the instance the constructor built from the row
mapping. -/
def RetrieveEagerOk {α : Type} (self : Interface) (cur : Cursor)
    (rt : Option (Row → α)) (pf : List Field) (wh : Row) : Prop :=
  ∃ lst : List (RetItem α),
    (perform_retrieve self cur rt pf wh).1 = Except.ok lst ∧
    (perform_retrieve self cur rt pf wh).2.rows = [] ∧
    (perform_retrieve self cur rt pf wh).2.executed.length = cur.executed.length + 1 ∧
    lst.length = cur.rows.length ∧
    (∀ i (h1 : i < lst.length) (h2 : i < cur.rows.length),
      lst.get ⟨i, h1⟩ =
        (match rt with
         | some f => RetItem.built (f (cur.rows.get ⟨i, h2⟩))
         | none => RetItem.raw (cur.rows.get ⟨i, h2⟩)))

/-- The write contract of an update that has at least one valid field
(claim C6): exactly one statement is executed, whose SET clause lists only
the supplied keys that are in `update_fields`, in `update_fields` declared
order, with the corresponding values in that same order followed by the
identifier as the positional parameters; and the returned mapping is the
input data restricted to `retrieve_fields ∩ data.keys`. -/
def UpdateWriteOk (self : Interface) (cur : Cursor) (id : Int) (data : Row) : Prop :=
  ∃ ctx : Row,
    perform_update self cur id data =
      (Except.ok (some ctx),
       Cursor.execute cur
         (updateQuery self.table_name
           (String.intercalate ", "
             ((self.update_fields.filter (fun k => Row.hasKey data k)).map (fun k => k ++ " = ?"))))
         (some (((self.update_fields.filter (fun k => Row.hasKey data k)).map (fun k => Row.get data k))
             ++ [Val.vint id]))) ∧
    (∀ k, Row.hasKey ctx k = true ↔ (k ∈ self.retrieve_fields ∧ k ∈ Row.keys data)) ∧
    (∀ k, k ∈ self.retrieve_fields → k ∈ Row.keys data → Row.get ctx k = Row.get data k)

/-- Modelled from the spec (claim C4): the spec calls the output of a valid
retrieve "a lazily consumed sequence of rows (finite, not restartable — one
pass over the Cursor's result set)".  A lazily consumed output pulls rows
from the cursor only as the caller consumes them, so at the moment the call
itself returns — the caller having consumed nothing yet — the number of rows
already fetched from the result set is zero. -/
def lazyRowsFetchedAtReturn : Nat := 0

/-- How many rows of the cursor's result set `perform_retrieve` has already
fetched by the time it returns. -/
def rowsFetchedAtReturn {α : Type} (self : Interface) (cur : Cursor)
    (rt : Option (Row → α)) (pf : List Field) (wh : Row) : Nat :=
  cur.rows.length - (perform_retrieve self cur rt pf wh).2.rows.length

/-! ## Basic lemmas about rows and validation -/

theorem Row.lookup_isSome_iff (r : Row) (k : Field) :
    (Row.lookup r k).isSome = true ↔ k ∈ Row.keys r := by
  induction r with
  | nil => simp [Row.lookup, Row.keys]
  | cons p r ih =>
    by_cases h : p.1 = k
    · simp [Row.lookup, Row.keys, h]
    · simp [Row.lookup, Row.keys, h, ih, Ne.symm h]

theorem Row.hasKey_iff (r : Row) (k : Field) :
    Row.hasKey r k = true ↔ k ∈ Row.keys r :=
  Row.lookup_isSome_iff r k

theorem Row.lookup_eq_none_of_not_mem {r : Row} {k : Field} (h : k ∉ Row.keys r) :
    Row.lookup r k = none := by
  have := (Row.lookup_isSome_iff r k).not.mpr h
  cases hl : Row.lookup r k with
  | none => rfl
  | some v => simp [hl] at this

theorem Row.get_of_not_mem {r : Row} {k : Field} (h : k ∉ Row.keys r) :
    Row.get r k = Val.vnone := by
  simp [Row.get, Row.lookup_eq_none_of_not_mem h]

theorem Row.lookup_map_pair (l : List Field) (f : Field → Val) (k : Field) :
    Row.lookup (l.map (fun x => (x, f x))) k =
      if k ∈ l then some (f k) else none := by
  induction l with
  | nil => simp [Row.lookup]
  | cons a l ih =>
    by_cases h : a = k
    · subst h
      simp [Row.lookup]
    · simp [Row.lookup, h, ih, Ne.symm h]

theorem Row.lookup_append (r1 r2 : Row) (k : Field) :
    Row.lookup (r1 ++ r2) k =
      match Row.lookup r1 k with
      | some v => some v
      | none => Row.lookup r2 k := by
  induction r1 with
  | nil => simp [Row.lookup]
  | cons p r ih =>
    by_cases h : p.1 = k
    · simp [Row.lookup, h]
    · simp [Row.lookup, h, ih]

theorem Row.lookup_setKey_self (r : Row) (k : Field) (v : Val) :
    Row.lookup (Row.setKey r k v) k = some v := by
  unfold Row.setKey
  by_cases h : Row.hasKey r k = true
  · rw [if_pos h]
    rw [Row.hasKey] at h
    induction r with
    | nil => simp [Row.lookup] at h
    | cons p r ih =>
      by_cases hp : p.1 = k
      · simp [Row.lookup, hp]
      · rw [Row.lookup, if_neg hp] at h
        simpa [Row.lookup, hp] using ih h
  · rw [if_neg h]
    rw [Row.hasKey] at h
    rw [Row.lookup_append]
    cases hl : Row.lookup r k with
    | some v0 => simp [hl] at h
    | none => simp [Row.lookup]

theorem Row.lookup_map_overwrite_ne (r : Row) (k0 : Field) (v : Val) (k : Field)
    (h : k ≠ k0) :
    Row.lookup (r.map (fun p => if p.1 = k0 then (k0, v) else p)) k = Row.lookup r k := by
  induction r with
  | nil => rfl
  | cons p r ih =>
    by_cases hp : p.1 = k0
    · have h2 : ¬ p.1 = k := by rw [hp]; exact Ne.symm h
      simp [Row.lookup, hp, Ne.symm h, h2, ih]
    · by_cases hpk : p.1 = k
      · simp [Row.lookup, hp, hpk, h]
      · simp [Row.lookup, hp, hpk, ih]

theorem Row.lookup_setKey_ne (r : Row) (k0 : Field) (v : Val) (k : Field) (h : k ≠ k0) :
    Row.lookup (Row.setKey r k0 v) k = Row.lookup r k := by
  unfold Row.setKey
  by_cases hk : Row.hasKey r k0 = true
  · rw [if_pos hk]
    exact Row.lookup_map_overwrite_ne r k0 v k h
  · rw [if_neg hk, Row.lookup_append]
    cases hl : Row.lookup r k with
    | some v0 => rfl
    | none => simp [Row.lookup, Ne.symm h]

theorem Row.hasKey_setKey (r : Row) (k0 : Field) (v : Val) (k : Field) :
    Row.hasKey (Row.setKey r k0 v) k = true ↔ (k = k0 ∨ Row.hasKey r k = true) := by
  by_cases h : k = k0
  · subst h
    simp [Row.hasKey, Row.lookup_setKey_self]
  · simp [Row.hasKey, Row.lookup_setKey_ne r k0 v k h, h]

theorem mem_unknownFields (keys allowed : List Field) (k : Field) :
    k ∈ unknownFields keys allowed ↔ (k ∈ keys ∧ k ∉ allowed) := by
  simp [unknownFields, List.mem_filter, List.mem_dedup]

theorem unknownFields_eq_nil_iff (keys allowed : List Field) :
    unknownFields keys allowed = [] ↔ ∀ k ∈ keys, k ∈ allowed := by
  rw [List.eq_nil_iff_forall_not_mem]
  constructor
  · intro h k hk
    by_contra hna
    exact h k ((mem_unknownFields keys allowed k).mpr ⟨hk, hna⟩)
  · intro h k hk
    obtain ⟨h1, h2⟩ := (mem_unknownFields keys allowed k).mp hk
    exact h2 (h k h1)

theorem unknownFields_length_pos_iff (keys allowed : List Field) :
    0 < (unknownFields keys allowed).length ↔ ∃ k ∈ keys, k ∉ allowed := by
  rw [List.length_pos, Ne, unknownFields_eq_nil_iff]
  push_neg
  rfl

theorem unknownFields_length_not_pos (keys allowed : List Field)
    (h : ∀ k ∈ keys, k ∈ allowed) : ¬ (unknownFields keys allowed).length > 0 := by
  simp [(unknownFields_eq_nil_iff keys allowed).mpr h]

/-! ## Lemmas about the cursor and the output mappings -/

theorem Cursor.execute_lastrowid (cur : Cursor) (q : String) (p : Option (List Val)) :
    (Cursor.execute cur q p).lastrowid = cur.lastrowid := rfl

theorem Cursor.execute_rows (cur : Cursor) (q : String) (p : Option (List Val)) :
    (Cursor.execute cur q p).rows = cur.rows := rfl

theorem Cursor.execute_executed (cur : Cursor) (q : String) (p : Option (List Val)) :
    (Cursor.execute cur q p).executed = cur.executed ++ [{ query := q, params := p }] := rfl

theorem hasKey_map_pair (l : List Field) (f : Field → Val) (k : Field) :
    Row.hasKey (l.map (fun x => (x, f x))) k = true ↔ k ∈ l := by
  rw [Row.hasKey, Row.lookup_map_pair]
  by_cases h : k ∈ l <;> simp [h]

theorem lookup_createContext_id (rf : List Field) (data : Row) (rowid : Int) :
    Row.lookup (createContext rf data rowid) "id" = some (Val.vint rowid) :=
  Row.lookup_setKey_self _ _ _

theorem get_createContext_id (rf : List Field) (data : Row) (rowid : Int) :
    Row.get (createContext rf data rowid) "id" = Val.vint rowid := by
  simp [Row.get, lookup_createContext_id]

theorem lookup_createContext_ne (rf : List Field) (data : Row) (rowid : Int)
    (k : Field) (h : k ≠ "id") :
    Row.lookup (createContext rf data rowid) k =
      if k ∈ rf then some (Row.get data k) else none := by
  unfold createContext
  rw [Row.lookup_setKey_ne _ _ _ _ h, Row.lookup_map_pair]

theorem hasKey_createContext (rf : List Field) (data : Row) (rowid : Int) (k : Field) :
    Row.hasKey (createContext rf data rowid) k = true ↔ (k ∈ rf ∨ k = "id") := by
  unfold createContext
  rw [Row.hasKey_setKey]
  rw [hasKey_map_pair]
  tauto

theorem lookup_updateContext (rf : List Field) (data : Row) (k : Field) :
    Row.lookup (updateContext rf data) k =
      if k ∈ rf ∧ Row.hasKey data k = true then some (Row.get data k) else none := by
  unfold updateContext
  rw [Row.lookup_map_pair]
  have hmem : (k ∈ ((rf.filter (fun x => Row.hasKey data x)).dedup)) ↔
      (k ∈ rf ∧ Row.hasKey data k = true) := by
    simp [List.mem_dedup, List.mem_filter]
  exact if_congr hmem rfl rfl

theorem createSuccess_eq {α : Type} (self : Interface) (cur : Cursor)
    (rt : Option (Row → α)) (data : Row) :
    createSuccess self cur rt data =
      ((match rt with
        | some f =>
            Except.ok (CreateResult.constructed (f (createContext self.retrieve_fields data cur.lastrowid)))
        | none =>
            Except.ok (CreateResult.mapping (createContext self.retrieve_fields data cur.lastrowid))),
       Cursor.execute cur
         (insertQuery self.table_name
           (String.intercalate ", " (valid_fields self.create_fields data))
           (Placeholder.for_create_query (fieldsValues self.create_fields data).length))
         (some (fieldsValues self.create_fields data))) := by
  cases rt <;> rfl

theorem perform_create_eq_error {α : Type} (self : Interface) (cur : Cursor)
    (rt : Option (Row → α)) (data : Row)
    (h : ∃ k ∈ Row.keys data, k ∉ self.create_fields) :
    perform_create self cur rt data =
      (Except.error (DBError.fieldNotAllowed (unknownFields (Row.keys data) self.create_fields)), cur) := by
  unfold perform_create
  rw [if_pos ((unknownFields_length_pos_iff _ _).mpr h)]

theorem perform_create_eq_success {α : Type} (self : Interface) (cur : Cursor)
    (rt : Option (Row → α)) (data : Row)
    (h : ∀ k ∈ Row.keys data, k ∈ self.create_fields) :
    perform_create self cur rt data = createSuccess self cur rt data := by
  unfold perform_create
  rw [if_neg (unknownFields_length_not_pos _ _ h)]

theorem retrieveSuccess_eq {α : Type} (self : Interface) (cur : Cursor)
    (rt : Option (Row → α)) (project2 : List Field) (wh : Row) :
    retrieveSuccess self cur rt project2 wh =
      (Except.ok (retrieveItems rt cur.rows),
       { executed := cur.executed ++
           [{ query := retrieveQuery self.table_name project2 (Row.keys wh),
              params := retrieveParams wh }],
         lastrowid := cur.lastrowid, rows := [] }) := rfl

theorem perform_retrieve_eq_success {α : Type} (self : Interface) (cur : Cursor)
    (rt : Option (Row → α)) (project_fields : List Field) (wh : Row)
    (hp : ∀ k ∈ project_fields, k ∈ self.retrieve_fields)
    (hw : ∀ k ∈ Row.keys wh, k ∈ self.retrieve_fields) :
    perform_retrieve self cur rt project_fields wh =
      retrieveSuccess self cur rt
        (if project_fields.length ≤ 0 then self.retrieve_fields else project_fields) wh := by
  unfold perform_retrieve
  rw [if_neg (unknownFields_length_not_pos _ _ hp),
    if_neg (unknownFields_length_not_pos _ _ hw)]

theorem valid_fields_nil (fields : List Field) : valid_fields fields [] = [] := by
  simp [valid_fields, Row.hasKey, Row.lookup]

theorem fieldsValues_nil (fields : List Field) : fieldsValues fields [] = [] := by
  simp [fieldsValues, Row.hasKey, Row.lookup]

theorem eq_nil_of_keys_split (data : Row) (allowed : List Field)
    (h1 : ∀ k ∈ Row.keys data, k ∉ allowed) (h2 : ∀ k ∈ Row.keys data, k ∈ allowed) :
    data = [] := by
  cases data with
  | nil => rfl
  | cons p r =>
    exact absurd (h2 p.1 (by simp [Row.keys])) (h1 p.1 (by simp [Row.keys]))

/-! ## The claims -/

/-- C1: for every field mapping `data`, `create(data)` fails with a
FieldNotAllowed error — naming exactly the offending keys — if and only if
`keys(data) - create_fields` is non-empty; when all keys belong to
`create_fields` no validation error is raised. -/
theorem claim_C1_create_validation (self : Interface) (cur : Cursor) (data : Row) :
    (isError (create (α := Row) self cur data).1 = true ↔
      ∃ k ∈ Row.keys data, k ∉ self.create_fields) ∧
    (∀ flds, (create (α := Row) self cur data).1 =
        Except.error (DBError.fieldNotAllowed flds) →
      ∀ k, (k ∈ flds ↔ (k ∈ Row.keys data ∧ k ∉ self.create_fields))) := by
  by_cases h : ∀ k ∈ Row.keys data, k ∈ self.create_fields
  · unfold create
    rw [perform_create_eq_success self cur none data h, createSuccess_eq]
    constructor
    · simp only [isError]
      constructor
      · intro hfalse
        cases hfalse
      · rintro ⟨k, hk, hnk⟩
        exact absurd (h k hk) hnk
    · intro flds hf
      cases hf
  · push_neg at h
    obtain ⟨k0, hk0, hnk0⟩ := h
    have hex : ∃ k ∈ Row.keys data, k ∉ self.create_fields := ⟨k0, hk0, hnk0⟩
    unfold create
    rw [perform_create_eq_error self cur none data hex]
    constructor
    · simp only [isError]
      exact ⟨fun _ => hex, fun _ => trivial⟩
    · intro flds hf k
      have heq : unknownFields (Row.keys data) self.create_fields = flds := by
        injection hf with h1
        injection h1
      rw [← heq, mem_unknownFields]

/-- C2 counterexample to the claim as stated: with `create_fields = ["id"]`,
`retrieve_fields = ["id"]`, input `\x7bid: 5\x7d` (a valid create: every key is
in `create_fields`) and a store-reported identifier 7, the returned mapping
binds `id` to 7, not to the supplied input value 5 — so "each key also
present in the input data maps to the input value" fails at the key `id`. -/
theorem claim_C2_counterexample :
    (create (α := Row) ⟨"t", ["id"], ["id"], []⟩ ⟨[], 7, []⟩ [("id", Val.vint 5)]).1 =
      Except.ok (CreateResult.mapping [("id", Val.vint 7)]) ∧
    "id" ∈ Row.keys [("id", Val.vint 5)] ∧
    Row.get [("id", Val.vint 5)] "id" = Val.vint 5 ∧
    Row.get [("id", Val.vint 7)] "id" ≠ Val.vint 5 :=
  ⟨rfl, by decide, rfl, by decide⟩

/-- C2 (amended): for every create call whose keys all belong to
`create_fields`, the returned mapping's key set equals
`retrieve_fields ∪ \x7bid\x7d`; each of its keys other than `id` that is also
present in the input data maps to the input value; the `id` key holds the
cursor's last-inserted identifier (overwriting any supplied input value for
`id`); and if a result constructor was supplied the mapping is passed to it
and the constructed value is returned instead. -/
theorem claim_C2_create_output {α : Type} (self : Interface) (cur : Cursor)
    (rt : Option (Row → α)) (data : Row)
    (h : ∀ k ∈ Row.keys data, k ∈ self.create_fields) :
    CreateOutputOk self cur rt data := by
  refine ⟨createContext self.retrieve_fields data cur.lastrowid, ?_, ?_, ?_, ?_⟩
  · rw [perform_create_eq_success self cur rt data h, createSuccess_eq]
  · exact fun k => hasKey_createContext _ _ _ k
  · intro k hrf hkd hne
    simp [Row.get, lookup_createContext_ne _ _ _ k hne, hrf]
  · exact get_createContext_id _ _ _

theorem claim_C2_witness :
    CreateOutputOk (α := Row) ⟨"t", ["a"], ["a", "b"], []⟩ ⟨[], 7, []⟩ none
      [("a", Val.vint 1)] :=
  claim_C2_create_output ⟨"t", ["a"], ["a", "b"], []⟩ ⟨[], 7, []⟩ none
    [("a", Val.vint 1)] (by decide)

/-- C10 counterexample to the claim as stated: with
`retrieve_fields = ["id"]` and empty input data (a valid create), the field
`id` of `retrieve_fields` is absent from the input, yet the returned
mapping binds it to the last-insert identifier 7, not to `None`. -/
theorem claim_C10_counterexample :
    (create (α := Row) ⟨"t", ["a"], ["id"], []⟩ ⟨[], 7, []⟩ []).1 =
      Except.ok (CreateResult.mapping [("id", Val.vint 7)]) ∧
    "id" ∉ Row.keys ([] : Row) ∧
    Row.get [("id", Val.vint 7)] "id" ≠ Val.vnone :=
  ⟨rfl, by decide, by decide⟩

/-- C10 (amended): for every valid create call, every field of
`retrieve_fields` other than `id` that is absent from the input data still
appears as a key of the returned mapping with value `None` (not omitted);
the `id` key instead holds the last-insert identifier even when absent from
the input. -/
theorem claim_C10_absent_fields (self : Interface) (cur : Cursor) (data : Row)
    (h : ∀ k ∈ Row.keys data, k ∈ self.create_fields) :
    CreateAbsentFieldsOk self cur data := by
  refine ⟨createContext self.retrieve_fields data cur.lastrowid, ?_, ?_, ?_⟩
  · unfold create
    rw [perform_create_eq_success self cur none data h, createSuccess_eq]
  · intro k hrf hne hnd
    refine ⟨(hasKey_createContext _ _ _ k).mpr (Or.inl hrf), ?_⟩
    simp [Row.get, lookup_createContext_ne _ _ _ k hne, hrf,
      Row.lookup_eq_none_of_not_mem hnd]
  · exact get_createContext_id _ _ _

theorem claim_C10_witness :
    CreateAbsentFieldsOk ⟨"t", ["a"], ["a", "b"], []⟩ ⟨[], 7, []⟩
      [("a", Val.vint 1)] :=
  claim_C10_absent_fields ⟨"t", ["a"], ["a", "b"], []⟩ ⟨[], 7, []⟩
    [("a", Val.vint 1)] (by decide)

/-- C5: an update whose data contains no keys from `update_fields` (and no
disallowed keys) returns `None` and executes no statement on the cursor:
the whole cursor state — including its statement log — is returned
untouched, a distinguishable no-op outcome rather than an error. -/
theorem claim_C5_update_noop (self : Interface) (cur : Cursor) (i : Int) (data : Row)
    (h1 : ∀ k ∈ Row.keys data, k ∉ self.update_fields)
    (h2 : ∀ k ∈ Row.keys data, k ∈ self.update_fields) :
    perform_update self cur i data = (Except.ok none, cur) := by
  have hdata : data = [] := eq_nil_of_keys_split data self.update_fields h1 h2
  subst hdata
  unfold perform_update
  rw [if_neg (unknownFields_length_not_pos _ _ (by simp [Row.keys]))]
  rw [if_pos (by simp [fieldsValues_nil])]

theorem claim_C5_witness :
    perform_update ⟨"t", [], [], ["a"]⟩ ⟨[], 0, []⟩ 3 [] =
      (Except.ok none, ⟨[], 0, []⟩) :=
  claim_C5_update_noop ⟨"t", [], [], ["a"]⟩ ⟨[], 0, []⟩ 3 [] (by decide) (by decide)

/-- C7: for every identifier, delete executes exactly one DELETE statement
whose WHERE clause is the equality predicate on the identifier, with the
identifier as its only parameter; it returns nothing; and it performs no
field validation — the outcome is identical for every choice of the three
field lists — and never raises FieldNotAllowed.  The equation holds for
every cursor state, and the model never reads an affected-row count, so
deleting a non-existent identifier completes the same way. -/
theorem claim_C7_delete (self : Interface) (cur : Cursor) (i : Int) :
    perform_delete self cur i =
      (none, Cursor.execute cur (deleteQuery self.table_name) (some [Val.vint i])) ∧
    (∀ cf rf uf, perform_delete ⟨self.table_name, cf, rf, uf⟩ cur i =
      perform_delete self cur i) :=
  ⟨rfl, fun _ _ _ => rfl⟩

/-- C9: whenever create, retrieve or update raises the field-validation
error, no statement has been executed on the cursor — validation happens
before any cursor interaction, so a validation failure leaves the statement
log exactly as it was. -/
theorem claim_C9_error_atomicity {α : Type} (self : Interface) (cur : Cursor)
    (rt : Option (Row → α)) (data : Row) (pf : List Field) (wh : Row) (i : Int) :
    (isError (perform_create self cur rt data).1 = true →
      (perform_create self cur rt data).2.executed = cur.executed) ∧
    (isError (perform_retrieve self cur rt pf wh).1 = true →
      (perform_retrieve self cur rt pf wh).2.executed = cur.executed) ∧
    (isError (perform_update self cur i data).1 = true →
      (perform_update self cur i data).2.executed = cur.executed) := by
  refine ⟨?_, ?_, ?_⟩
  · unfold perform_create
    split
    · intro _
      rfl
    · rw [createSuccess_eq]
      cases rt <;> simp [isError]
  · unfold perform_retrieve
    split
    · intro _
      rfl
    · split
      · intro _
        rfl
      · rw [retrieveSuccess_eq]
        simp [isError]
  · unfold perform_update
    split
    · intro _
      rfl
    · split
      · intro _
        rfl
      · simp [isError]

/-- C8 counterexample to the claim as stated: a create call none of whose
keys are in `create_fields`, with at least one key, raises FieldNotAllowed
and executes nothing — the INSERT is not "still executed". -/
theorem claim_C8_counterexample :
    create (α := Row) ⟨"t", ["a"], [], []⟩ ⟨[], 0, []⟩ [("x", Val.vint 1)] =
      (Except.error (DBError.fieldNotAllowed ["x"]),
       { executed := [], lastrowid := 0, rows := [] }) := rfl

/-- C8 (amended): when a create call passes validation and none of its keys
are in `create_fields` — jointly forcing the input data to be empty — the
INSERT statement is still executed on the cursor, with an empty column list
and an empty value tuple, rather than the operation failing fast or
returning early. -/
theorem claim_C8_empty_insert (self : Interface) (cur : Cursor) (data : Row)
    (h1 : ∀ k ∈ Row.keys data, k ∈ self.create_fields)
    (h2 : ∀ k ∈ Row.keys data, k ∉ self.create_fields) :
    create (α := Row) self cur data =
      (Except.ok (CreateResult.mapping (createContext self.retrieve_fields data cur.lastrowid)),
       Cursor.execute cur (insertQuery self.table_name "" "") (some [])) := by
  have hdata : data = [] := eq_nil_of_keys_split data self.create_fields h2 h1
  subst hdata
  unfold create
  rw [perform_create_eq_success self cur none [] h1, createSuccess_eq,
    valid_fields_nil, fieldsValues_nil]
  rfl

theorem claim_C8_witness :
    create (α := Row) ⟨"t", ["a"], ["b"], []⟩ ⟨[], 5, []⟩ [] =
      (Except.ok (CreateResult.mapping (createContext ["b"] [] 5)),
       Cursor.execute ⟨[], 5, []⟩ (insertQuery "t" "" "") (some [])) :=
  claim_C8_empty_insert ⟨"t", ["a"], ["b"], []⟩ ⟨[], 5, []⟩ [] (by decide) (by decide)

/-- C3: a retrieve call raises FieldNotAllowed if and only if some
projection field or some filter key is outside `retrieve_fields`; and
whenever the projection list is empty and validation passes, the executed
SELECT projects the full `retrieve_fields` list in declared order (the
projection defaults to `retrieve_fields`). -/
theorem claim_C3_retrieve_validation {α : Type} (self : Interface) (cur : Cursor)
    (rt : Option (Row → α)) (pf : List Field) (wh : Row) :
    (isError (perform_retrieve self cur rt pf wh).1 = true ↔
      ((∃ k ∈ pf, k ∉ self.retrieve_fields) ∨
        (∃ k ∈ Row.keys wh, k ∉ self.retrieve_fields))) ∧
    (pf = [] → (∀ k ∈ Row.keys wh, k ∈ self.retrieve_fields) →
      (perform_retrieve self cur rt pf wh).2.executed =
        cur.executed ++
          [{ query := retrieveQuery self.table_name self.retrieve_fields (Row.keys wh),
             params := retrieveParams wh }]) := by
  constructor
  · by_cases h1 : ∃ k ∈ pf, k ∉ self.retrieve_fields
    · unfold perform_retrieve
      rw [if_pos ((unknownFields_length_pos_iff _ _).mpr h1)]
      simp only [isError]
      exact ⟨fun _ => Or.inl h1, fun _ => trivial⟩
    · push_neg at h1
      by_cases h2 : ∃ k ∈ Row.keys wh, k ∉ self.retrieve_fields
      · unfold perform_retrieve
        rw [if_neg (unknownFields_length_not_pos _ _ h1),
          if_pos ((unknownFields_length_pos_iff _ _).mpr h2)]
        simp only [isError]
        exact ⟨fun _ => Or.inr h2, fun _ => trivial⟩
      · push_neg at h2
        rw [perform_retrieve_eq_success self cur rt pf wh h1 h2, retrieveSuccess_eq]
        simp only [isError]
        constructor
        · intro hfalse
          cases hfalse
        · rintro (⟨k, hk, hnk⟩ | ⟨k, hk, hnk⟩)
          · exact absurd (h1 k hk) hnk
          · exact absurd (h2 k hk) hnk
  · intro hpf hw
    subst hpf
    rw [perform_retrieve_eq_success self cur rt [] wh (by simp) hw,
      retrieveSuccess_eq]
    simp

/-- C4 counterexample to the claim as stated: the spec describes the output
of a valid retrieve as a lazily consumed, non-restartable sequence — one
that would have fetched zero rows at the moment the call returns.  With two
pending result rows, the call has already fetched both rows before
returning (it materializes the whole result set into a list), contradicting
lazy consumption. -/
theorem claim_C4_counterexample :
    rowsFetchedAtReturn (α := Row) ⟨"t", [], ["a"], []⟩
        ⟨[], 0, [[("a", Val.vint 1)], [("a", Val.vint 2)]]⟩ none [] [] = 2 ∧
    (2 : Nat) ≠ lazyRowsFetchedAtReturn :=
  ⟨rfl, by decide⟩

/-- C4 (amended): for every valid retrieve call, the output is an eagerly
materialized finite list, built in exactly one pass that exhausts the
cursor's result set before the call returns; each row is collected as-is as
a mapping unless a result constructor was supplied, in which case each row
mapping is passed to the constructor and the constructed instance is
collected instead, in store iteration order. -/
theorem claim_C4_retrieve_output {α : Type} (self : Interface) (cur : Cursor)
    (rt : Option (Row → α)) (pf : List Field) (wh : Row)
    (hp : ∀ k ∈ pf, k ∈ self.retrieve_fields)
    (hw : ∀ k ∈ Row.keys wh, k ∈ self.retrieve_fields) :
    RetrieveEagerOk self cur rt pf wh := by
  have he := perform_retrieve_eq_success self cur rt pf wh hp hw
  refine ⟨retrieveItems rt cur.rows, ?_, ?_, ?_, ?_, ?_⟩
  · rw [he, retrieveSuccess_eq]
  · rw [he, retrieveSuccess_eq]
  · rw [he, retrieveSuccess_eq]
    simp
  · cases rt <;> simp [retrieveItems]
  · intro i h1 h2
    cases rt <;> simp [retrieveItems]

theorem claim_C4_witness :
    RetrieveEagerOk (α := Row) ⟨"t", [], ["a"], []⟩
      ⟨[], 0, [[("a", Val.vint 1)], [("a", Val.vint 2)]]⟩
      (some (fun r => r)) ["a"] [("a", Val.vint 1)] :=
  claim_C4_retrieve_output ⟨"t", [], ["a"], []⟩
    ⟨[], 0, [[("a", Val.vint 1)], [("a", Val.vint 2)]]⟩
    (some (fun r => r)) ["a"] [("a", Val.vint 1)] (by decide) (by decide)

/-- C6: an update with at least one key in `update_fields` (and no
disallowed keys) executes exactly one statement, whose SET clause lists
only the supplied valid keys in `update_fields` declared order, with the
corresponding values in that order followed by the identifier as positional
parameters, and returns the mapping restricting the input data to
`retrieve_fields ∩ data.keys`.  (The SET clause rendering relies on the
spec-modelled `Placeholder.for_update_query`.) -/
theorem claim_C6_update_write (self : Interface) (cur : Cursor) (i : Int) (data : Row)
    (hvalid : ∀ k ∈ Row.keys data, k ∈ self.update_fields)
    (hsome : ∃ k ∈ Row.keys data, k ∈ self.update_fields) :
    UpdateWriteOk self cur i data := by
  obtain ⟨k0, hk0, hk0u⟩ := hsome
  have hkey : Row.hasKey data k0 = true := (Row.hasKey_iff data k0).mpr hk0
  have hfilter : self.update_fields.filter (fun k => Row.hasKey data k) ≠ [] :=
    List.ne_nil_of_mem (List.mem_filter.mpr ⟨hk0u, hkey⟩)
  have hlen : ¬ (fieldsValues self.update_fields data).length ≤ 0 := by
    simp only [fieldsValues, List.length_map, Nat.le_zero, List.length_eq_zero]
    exact hfilter
  refine ⟨updateContext self.retrieve_fields data, ?_, ?_, ?_⟩
  · unfold perform_update
    rw [if_neg (unknownFields_length_not_pos _ _ hvalid), if_neg hlen]
    rfl
  · intro k
    constructor
    · intro hk
      rw [Row.hasKey, lookup_updateContext] at hk
      by_cases h : k ∈ self.retrieve_fields ∧ Row.hasKey data k = true
      · exact ⟨h.1, (Row.hasKey_iff data k).mp h.2⟩
      · rw [if_neg h] at hk
        cases hk
    · rintro ⟨hr, hd⟩
      rw [Row.hasKey, lookup_updateContext,
        if_pos ⟨hr, (Row.hasKey_iff data k).mpr hd⟩]
      rfl
  · intro k hr hd
    simp [Row.get, lookup_updateContext, hr, (Row.hasKey_iff data k).mpr hd]

theorem claim_C6_witness :
    UpdateWriteOk ⟨"t", [], ["a", "b"], ["a", "c"]⟩ ⟨[], 0, []⟩ 4
      [("a", Val.vint 1)] :=
  claim_C6_update_write ⟨"t", [], ["a", "b"], ["a", "c"]⟩ ⟨[], 0, []⟩ 4
    [("a", Val.vint 1)] (by decide) (by decide)

end JudgeInterface
